import Mathlib

/-!
Verification of the Pixel Plant personality engine
(`src/personality/personality_engine.{h,cpp}` together with the constants of
`config.h`).  The C++ classes are shallowly embedded: the mutable
`PersonalityEngine` object becomes a Lean structure, each member function
becomes a state-passing function, the Arduino `millis()` clock becomes an
explicit `now : Nat` argument (milliseconds, 32-bit unsigned arithmetic is
modelled by `usub`), and `float` arithmetic is modelled exactly over `ℚ`.
-/

set_option maxHeartbeats 2000000

namespace PixelPlant

/-! ### Constants from `config.h` -/

/-- `#define NORMAL_INACTIVITY_THRESHOLD 30` (minutes, when to start caring). -/
def NORMAL_INACTIVITY_THRESHOLD : Nat := 30

/-- `#define CONCERNED_INACTIVITY_THRESHOLD 60` (minutes). -/
def CONCERNED_INACTIVITY_THRESHOLD : Nat := 60

/-- `#define URGENT_INACTIVITY_THRESHOLD 120` (minutes). -/
def URGENT_INACTIVITY_THRESHOLD : Nat := 120

/-- `#define RESPONSE_COOLDOWN 5000` (minimum time between responses, ms). -/
def RESPONSE_COOLDOWN : Nat := 5000

/-- `#define LEARNING_RATE 0.1` (how quickly to adapt to user patterns). -/
def LEARNING_RATE : ℚ := 0.1

/-- `#define CARING_RESPONSE_WARMTH 0.9`. -/
def CARING_RESPONSE_WARMTH : ℚ := 0.9

/-- 32-bit modulus of the Arduino `unsigned long` / `millis()` clock. -/
def U32 : Nat := 2 ^ 32

/-- Unsigned 32-bit subtraction `a - b`, as used for `millis() - timestamp`. -/
def usub (a b : Nat) : Nat := (a % U32 + U32 - b % U32) % U32

/-! ### Enumerations (`config.h` and `personality_engine.h`) -/

/-- `enum MoodType` from `config.h`. -/
inductive MoodType
  | MOOD_HAPPY
  | MOOD_CARING
  | MOOD_CONCERNED
  | MOOD_WORRIED
  | MOOD_SLEEPING
  | MOOD_CELEBRATING
  deriving DecidableEq, Repr, Inhabited

export MoodType (MOOD_HAPPY MOOD_CARING MOOD_CONCERNED MOOD_WORRIED
  MOOD_SLEEPING MOOD_CELEBRATING)

/-- `enum ResponseType` from `personality_engine.h` (`RESPONSE_COUNT` is the
number of constructors, not a value). -/
inductive ResponseType
  | RESPONSE_GREETING
  | RESPONSE_HYDRATION
  | RESPONSE_MOVEMENT
  | RESPONSE_POSTURE
  | RESPONSE_BREAK
  | RESPONSE_ENCOURAGEMENT
  | RESPONSE_CELEBRATION
  | RESPONSE_CONCERN
  | RESPONSE_URGENT
  | RESPONSE_GOODNIGHT
  deriving DecidableEq, Repr, Inhabited

export ResponseType (RESPONSE_GREETING RESPONSE_HYDRATION RESPONSE_MOVEMENT
  RESPONSE_POSTURE RESPONSE_BREAK RESPONSE_ENCOURAGEMENT RESPONSE_CELEBRATION
  RESPONSE_CONCERN RESPONSE_URGENT RESPONSE_GOODNIGHT)

/-- `enum CareLevel` from `personality_engine.h`:
`CARE_GENTLE = 0 < CARE_ENCOURAGING < CARE_CONCERNED < CARE_WORRIED`. -/
inductive CareLevel
  | CARE_GENTLE
  | CARE_ENCOURAGING
  | CARE_CONCERNED
  | CARE_WORRIED
  deriving DecidableEq, Repr, Inhabited

export CareLevel (CARE_GENTLE CARE_ENCOURAGING CARE_CONCERNED CARE_WORRIED)

/-- Numeric value of a `CareLevel` enumerator (its C value). -/
def CareLevel.toNat : CareLevel → Nat
  | CARE_GENTLE => 0
  | CARE_ENCOURAGING => 1
  | CARE_CONCERNED => 2
  | CARE_WORRIED => 3

/-- The C cast `(CareLevel)n` for the values that occur in the engine
(`n ≥ 3` is clamped to `CARE_WORRIED`; the source only ever casts 1, 2, 3). -/
def CareLevel.ofIdx : Nat → CareLevel
  | 0 => CARE_GENTLE
  | 1 => CARE_ENCOURAGING
  | 2 => CARE_CONCERNED
  | _ => CARE_WORRIED

/-! ### Data structures -/

/-- The fields of `struct BehaviorData` (defined in the firmware sketch) that
the personality engine reads: `inactivityMinutes` plus the need / positive
behavior flags consumed by `PersonalityTraits` and `updateMood`. -/
structure BehaviorData where
  inactivityMinutes : Nat
  needsHydration : Bool
  needsMovement : Bool
  needsPostureAdjustment : Bool
  needsSupport : Bool
  hasPositiveBehavior : Bool
  deriving DecidableEq, Repr, Inhabited

/-- `struct PersonalityMessage` from `personality_engine.h`. -/
structure PersonalityMessage where
  text : String
  mood : MoodType
  careLevel : CareLevel
  timestamp : Nat
  useCount : Nat
  deriving DecidableEq, Repr, Inhabited

/-- `struct InteractionHistory` from `personality_engine.h`. -/
structure InteractionHistory where
  lastResponseType : ResponseType
  lastResponseTime : Nat
  userResponded : Bool
  consecutiveIgnored : Nat
  responseEffectiveness : ℚ
  deriving DecidableEq, Repr, Inhabited

/-- The mutable state of `class PersonalityEngine`.  The per-`ResponseType`
arrays `messageBank[RESPONSE_COUNT]` and `userPreferences[RESPONSE_COUNT]`
become functions out of `ResponseType`. -/
structure PersonalityEngine where
  currentMood : MoodType
  currentCareLevel : CareLevel
  caringIntensity : ℚ
  personalityWarmth : ℚ
  messageBank : ResponseType → List PersonalityMessage
  messageQueue : List String
  lastMessageTime : Nat
  history : InteractionHistory
  userName : String
  userPreferences : ResponseType → ℚ
  learningEnabled : Bool
  adaptationRate : ℚ
  responseCooldown : Nat
  canRespond : Bool

/-! ### `namespace PersonalityTraits` -/

namespace PersonalityTraits

/-- `PersonalityTraits::behaviorToMood`. -/
def behaviorToMood (behavior : BehaviorData) : MoodType :=
  if URGENT_INACTIVITY_THRESHOLD < behavior.inactivityMinutes then
    MOOD_WORRIED
  else if CONCERNED_INACTIVITY_THRESHOLD < behavior.inactivityMinutes then
    MOOD_CONCERNED
  else if behavior.hasPositiveBehavior then
    MOOD_CELEBRATING
  else if behavior.needsSupport then
    MOOD_CARING
  else
    MOOD_HAPPY

/-- `PersonalityTraits::calculateCaringUrgency`. -/
def calculateCaringUrgency (behavior : BehaviorData) : ℚ :=
  let u0 : ℚ :=
    if URGENT_INACTIVITY_THRESHOLD < behavior.inactivityMinutes then 0.8
    else if CONCERNED_INACTIVITY_THRESHOLD < behavior.inactivityMinutes then 0.5
    else if NORMAL_INACTIVITY_THRESHOLD < behavior.inactivityMinutes then 0.3
    else 0
  let u1 := u0 + (if behavior.needsHydration then 0.3 else 0)
  let u2 := u1 + (if behavior.needsMovement then 0.2 else 0)
  let u3 := u2 + (if behavior.needsPostureAdjustment then 0.1 else 0)
  min u3 1

end PersonalityTraits

/-! ### Engine operations (`personality_engine.cpp`) -/

namespace PersonalityEngine

/-- `PersonalityEngine::escalateCareLevel`:
`if (currentCareLevel < CARE_WORRIED) currentCareLevel = (CareLevel)(currentCareLevel + 1)`. -/
def escalateCareLevel (e : PersonalityEngine) : PersonalityEngine :=
  if e.currentCareLevel.toNat < CareLevel.CARE_WORRIED.toNat then
    { e with currentCareLevel := CareLevel.ofIdx (e.currentCareLevel.toNat + 1) }
  else e

/-- `PersonalityEngine::reduceCareLevel`:
`if (currentCareLevel > CARE_GENTLE) currentCareLevel = (CareLevel)(currentCareLevel - 1)`. -/
def reduceCareLevel (e : PersonalityEngine) : PersonalityEngine :=
  if CareLevel.CARE_GENTLE.toNat < e.currentCareLevel.toNat then
    { e with currentCareLevel := CareLevel.ofIdx (e.currentCareLevel.toNat - 1) }
  else e

/-- `PersonalityEngine::setMood` (the log line is ignored). -/
def setMood (e : PersonalityEngine) (mood : MoodType) : PersonalityEngine :=
  { e with currentMood := mood }

/-- `PersonalityEngine::updateMood`. -/
def updateMood (e : PersonalityEngine) (behavior : BehaviorData) : PersonalityEngine :=
  let e1 := setMood e (PersonalityTraits.behaviorToMood behavior)
  let urgency := PersonalityTraits.calculateCaringUrgency behavior
  let e2 := { e1 with caringIntensity := urgency }
  if 0.7 < urgency ∧ e2.currentCareLevel.toNat < CareLevel.CARE_WORRIED.toNat then
    escalateCareLevel e2
  else if urgency < 0.3 ∧ CareLevel.CARE_GENTLE.toNat < e2.currentCareLevel.toNat then
    reduceCareLevel e2
  else e2

/-- `PersonalityEngine::adaptToUser` (the `type < RESPONSE_COUNT` guard always
holds for a genuine enumerator). -/
def adaptToUser (e : PersonalityEngine) (type : ResponseType) (effectiveness : ℚ) :
    PersonalityEngine :=
  { e with userPreferences := fun s =>
      if s = type then
        e.userPreferences type * (1 - e.adaptationRate) + effectiveness * e.adaptationRate
      else e.userPreferences s }

/-- `PersonalityEngine::recordUserResponse`. -/
def recordUserResponse (e : PersonalityEngine) (responseType : ResponseType)
    (effective : Bool) : PersonalityEngine :=
  let e1 := { e with history :=
    { e.history with userResponded := true, consecutiveIgnored := 0 } }
  let e2 := if e1.learningEnabled then
      adaptToUser e1 responseType (if effective then 1.0 else 0.0)
    else e1
  if effective = true ∧ CareLevel.CARE_GENTLE.toNat < e2.currentCareLevel.toNat then
    reduceCareLevel e2
  else e2

/-- `PersonalityEngine::recordUserIgnored`. -/
def recordUserIgnored (e : PersonalityEngine) (responseType : ResponseType) :
    PersonalityEngine :=
  let e1 := { e with history :=
    { e.history with userResponded := false,
                     consecutiveIgnored := e.history.consecutiveIgnored + 1 } }
  let e2 := if e1.learningEnabled then adaptToUser e1 responseType 0.2 else e1
  if 3 ≤ e2.history.consecutiveIgnored ∧
      e2.currentCareLevel.toNat < CareLevel.CARE_WORRIED.toNat then
    escalateCareLevel e2
  else e2

/-- `PersonalityEngine::canRespondNow`:
`canRespond && (millis() - lastMessageTime > responseCooldown)`. -/
def canRespondNow (e : PersonalityEngine) (now : Nat) : Bool :=
  e.canRespond && decide (e.responseCooldown < usub now e.lastMessageTime)

/-- Does `pat` occur at the head of `l`?  (Helper for `replaceAll`.) -/
def matchesAt : List Char → List Char → Bool
  | [], _ => true
  | _ :: _, [] => false
  | p :: ps, c :: cs => p = c && matchesAt ps cs

/-- Fuel-driven worker for `replaceAll`; the fuel is an upper bound on the
number of characters still to be scanned, so it never cuts the scan short. -/
def replaceLoop (pat rep : List Char) : Nat → List Char → List Char
  | _, [] => []
  | 0, l => l
  | Nat.succ fuel, c :: rest =>
    if matchesAt pat (c :: rest) then
      rep ++ replaceLoop pat rep fuel (List.drop pat.length (c :: rest))
    else
      c :: replaceLoop pat rep fuel rest

/-- The Arduino `String::replace(find, replace)` member: replaces every
occurrence of `pat` in `s` left to right (a no-op for an empty `pat`). -/
def replaceAll (s pat rep : String) : String :=
  if pat.data.isEmpty then s
  else String.mk (replaceLoop pat.data rep.data s.data.length s.data)

/-- `PersonalityEngine::personalizeMessage`:
`personalized.replace("{name}", userName)`. -/
def personalizeMessage (e : PersonalityEngine) (baseMessage : String) : String :=
  replaceAll baseMessage "\x7bname\x7d" e.userName

/-- Care-level component of the message score (`+0.4` on exact match). -/
def careBonus (e : PersonalityEngine) (m : PersonalityMessage) : ℚ :=
  if m.careLevel = e.currentCareLevel then 0.4 else 0

/-- Mood component of the message score (`+0.3` on match). -/
def moodBonus (e : PersonalityEngine) (m : PersonalityMessage) : ℚ :=
  if m.mood = e.currentMood then 0.3 else 0

/-- Recency component: `(timeSinceUse / 60000.0) * 0.2` where
`timeSinceUse = millis() - message.timestamp` in unsigned arithmetic. -/
def recencyBonus (now : Nat) (m : PersonalityMessage) : ℚ :=
  ((usub now m.timestamp : ℚ) / 60000) * 0.2

/-- Frequency component: `(10.0 / (message.useCount + 1)) * 0.1`. -/
def frequencyBonus (m : PersonalityMessage) : ℚ :=
  (10 / ((m.useCount : ℚ) + 1)) * 0.1

/-- The per-candidate score accumulated in `selectBestMessage`. -/
def score (e : PersonalityEngine) (now : Nat) (m : PersonalityMessage) : ℚ :=
  careBonus e m + moodBonus e m + recencyBonus now m + frequencyBonus m

/-- The selection loop of `selectBestMessage`: runs over the remaining
messages keeping the first strict maximum (`if (score > bestScore)`), where
`i` is the index of the head of the remaining list, `best` the current
`bestMessage` (index and value, standing for the C++ pointer) and
`bestScore` the current best score. -/
def selectLoop (e : PersonalityEngine) (now : Nat) :
    List PersonalityMessage → Nat → Option (Nat × PersonalityMessage) → ℚ →
    Option (Nat × PersonalityMessage)
  | [], _, best, _ => best
  | m :: rest, i, best, bestScore =>
    if bestScore < score e now m then
      selectLoop e now rest (i + 1) (some (i, m)) (score e now m)
    else
      selectLoop e now rest (i + 1) best bestScore

/-- `PersonalityEngine::selectBestMessage` (`nullptr` becomes `none`; the
`type >= RESPONSE_COUNT` guard always holds for a genuine enumerator). -/
def selectBestMessage (e : PersonalityEngine) (now : Nat) (type : ResponseType) :
    Option (Nat × PersonalityMessage) :=
  if (e.messageBank type).isEmpty then none
  else selectLoop e now (e.messageBank type) 0 none (-1)

/-- `PersonalityEngine::generateCaringResponse(ResponseType)`, returning the
emitted string (`""` when the cooldown gate fails) together with the updated
engine.  On success the chosen message's `useCount`/`timestamp` and the
engine's `lastMessageTime`/`history` are updated; when `selectBestMessage`
finds no message the hard-coded fallback text is returned unchanged. -/
def generateCaringResponse (e : PersonalityEngine) (now : Nat) (type : ResponseType) :
    String × PersonalityEngine :=
  if canRespondNow e now = false then ("", e)
  else
    match selectBestMessage e now type with
    | none => ("I care about you! 💚", e)
    | some p =>
      let updated := { p.2 with useCount := p.2.useCount + 1, timestamp := now }
      let e1 := { e with
        messageBank := fun s =>
          if s = type then (e.messageBank type).set p.1 updated else e.messageBank s,
        lastMessageTime := now,
        history := { e.history with
          lastResponseType := type, lastResponseTime := now, userResponded := false } }
      (personalizeMessage e p.2.text, e1)

/-- `PersonalityEngine::queueMessage(const String&)`. -/
def queueMessage (e : PersonalityEngine) (message : String) : PersonalityEngine :=
  if e.messageQueue.length < 10 then
    { e with messageQueue := e.messageQueue ++ [message] }
  else e

/-- `PersonalityEngine::getNextMessage`. -/
def getNextMessage (e : PersonalityEngine) : String × PersonalityEngine :=
  match e.messageQueue with
  | [] => ("", e)
  | message :: rest => (message, { e with messageQueue := rest })

end PersonalityEngine

/-! ### The message bank (`initializeMessageBank` and the `load*Messages`
loaders).  Every entry is created with `timestamp = 0` and `useCount = 0`. -/

/-- `PersonalityEngine::loadHydrationMessages`. -/
def hydrationMessages : List PersonalityMessage :=
  [ ⟨"Hey there! You need to hydrate! 💧", MOOD_CARING, CARE_GENTLE, 0, 0⟩,
    ⟨"Time for some water, \x7bname\x7d! Your body will thank you! 🌿", MOOD_CARING, CARE_GENTLE, 0, 0⟩,
    ⟨"How about a refreshing drink? Stay hydrated! ✨", MOOD_HAPPY, CARE_GENTLE, 0, 0⟩,
    ⟨"Your pixel plant thinks you could use some H2O! 💙", MOOD_HAPPY, CARE_GENTLE, 0, 0⟩,
    ⟨"Thirsty? I bet you are! Take a sip for me! 🥤", MOOD_CARING, CARE_GENTLE, 0, 0⟩,
    ⟨"I notice you haven\x27t had water in a while. How about it? 💧", MOOD_CARING, CARE_ENCOURAGING, 0, 0⟩,
    ⟨"Your caring companion reminds you: hydration is self-care! 🌸", MOOD_CARING, CARE_ENCOURAGING, 0, 0⟩,
    ⟨"Let\x27s keep that energy up with some refreshing water! 🌊", MOOD_CARING, CARE_ENCOURAGING, 0, 0⟩,
    ⟨"Hey \x7bname\x7d, I\x27m getting a bit worried about your hydration. Please drink something! 💧", MOOD_CONCERNED, CARE_CONCERNED, 0, 0⟩,
    ⟨"It\x27s been quite a while since your last drink. Your pixel plant is concerned! 🌿", MOOD_CONCERNED, CARE_CONCERNED, 0, 0⟩,
    ⟨"Please, \x7bname\x7d - you really need to drink some water now. I\x27m worried about you! 💧", MOOD_WORRIED, CARE_WORRIED, 0, 0⟩ ]

/-- `PersonalityEngine::loadMovementMessages`. -/
def movementMessages : List PersonalityMessage :=
  [ ⟨"How about a snack? Take a walk! Stretch it out! 🚶‍♀️", MOOD_CARING, CARE_GENTLE, 0, 0⟩,
    ⟨"Time to get those muscles moving, \x7bname\x7d! Even a little stretch helps! 🤸‍♀️", MOOD_HAPPY, CARE_GENTLE, 0, 0⟩,
    ⟨"Your body is asking for some movement! Listen to it! 🌟", MOOD_CARING, CARE_GENTLE, 0, 0⟩,
    ⟨"Let\x27s get the blood flowing! A quick walk does wonders! 🌈", MOOD_HAPPY, CARE_GENTLE, 0, 0⟩,
    ⟨"Movement is medicine! How about a little dance? 💃", MOOD_HAPPY, CARE_GENTLE, 0, 0⟩,
    ⟨"You\x27ve been sitting for a while. Your pixel plant suggests a movement break! 🌿", MOOD_CARING, CARE_ENCOURAGING, 0, 0⟩,
    ⟨"I know you\x27re focused, but your body needs some love too! Stretch time! 🧘‍♀️", MOOD_CARING, CARE_ENCOURAGING, 0, 0⟩,
    ⟨"Even champions need movement breaks! You\x27ve got this! 💪", MOOD_CARING, CARE_ENCOURAGING, 0, 0⟩,
    ⟨"I\x27m noticing you\x27ve been still for quite some time. Please move around a bit! 🚶‍♂️", MOOD_CONCERNED, CARE_CONCERNED, 0, 0⟩,
    ⟨"Your caring companion is getting concerned about your posture. Stand up for me? 🌸", MOOD_CONCERNED, CARE_CONCERNED, 0, 0⟩ ]

/-- `PersonalityEngine::loadPostureMessages`. -/
def postureMessages : List PersonalityMessage :=
  [ ⟨"Time to adjust that posture! Stretch it out! 🧘", MOOD_CARING, CARE_GENTLE, 0, 0⟩,
    ⟨"Roll those shoulders back, \x7bname\x7d! Your spine will thank you! 💚", MOOD_CARING, CARE_GENTLE, 0, 0⟩,
    ⟨"Let\x27s check that posture! Sit up tall like the amazing person you are! ✨", MOOD_HAPPY, CARE_GENTLE, 0, 0⟩,
    ⟨"Your pixel plant notices some slouching! Time for a posture reset! 🌿", MOOD_CARING, CARE_GENTLE, 0, 0⟩,
    ⟨"Gentle reminder: your future self will thank you for good posture now! 🙏", MOOD_CARING, CARE_ENCOURAGING, 0, 0⟩ ]

/-- `PersonalityEngine::loadEncouragementMessages`. -/
def encouragementMessages : List PersonalityMessage :=
  [ ⟨"You\x27re doing great! Keep up the amazing work! 🌟", MOOD_HAPPY, CARE_GENTLE, 0, 0⟩,
    ⟨"Aw, it\x27s not so bad! Give yourself a hug! 🤗", MOOD_CARING, CARE_GENTLE, 0, 0⟩,
    ⟨"I believe in you, \x7bname\x7d! You\x27ve got this! 💪", MOOD_HAPPY, CARE_ENCOURAGING, 0, 0⟩,
    ⟨"Every small step counts! You\x27re making progress! 🌱", MOOD_CARING, CARE_GENTLE, 0, 0⟩,
    ⟨"Your pixel plant is proud of your efforts! Keep going! 🌿✨", MOOD_HAPPY, CARE_GENTLE, 0, 0⟩,
    ⟨"Remember: you\x27re braver than you believe and stronger than you seem! 🦋", MOOD_CARING, CARE_ENCOURAGING, 0, 0⟩,
    ⟨"Tough moments don\x27t last, but resilient people like you do! 🌈", MOOD_CARING, CARE_ENCOURAGING, 0, 0⟩ ]

/-- `PersonalityEngine::loadCelebrationMessages`. -/
def celebrationMessages : List PersonalityMessage :=
  [ ⟨"Wonderful! You took care of yourself! I\x27m so proud! 🎉", MOOD_CELEBRATING, CARE_GENTLE, 0, 0⟩,
    ⟨"Yes! That\x27s what I love to see! Great self-care! ✨", MOOD_CELEBRATING, CARE_GENTLE, 0, 0⟩,
    ⟨"You listened to your body! That\x27s what caring for yourself looks like! 💚", MOOD_HAPPY, CARE_GENTLE, 0, 0⟩,
    ⟨"Your pixel plant is doing a happy dance! Well done, \x7bname\x7d! 🌿💃", MOOD_CELEBRATING, CARE_GENTLE, 0, 0⟩,
    ⟨"That\x27s the spirit! Taking care of yourself is beautiful! 🌸", MOOD_HAPPY, CARE_GENTLE, 0, 0⟩ ]

/-- `PersonalityEngine::loadConcernMessages`. -/
def concernMessages : List PersonalityMessage :=
  [ ⟨"I\x27m getting a bit worried about you. Everything okay? 💙", MOOD_CONCERNED, CARE_CONCERNED, 0, 0⟩,
    ⟨"Your pixel plant is concerned. You matter, and your wellbeing matters! 🌿", MOOD_CONCERNED, CARE_CONCERNED, 0, 0⟩,
    ⟨"I care about you, \x7bname\x7d. Let\x27s take care of your needs together! 💚", MOOD_CONCERNED, CARE_CONCERNED, 0, 0⟩,
    ⟨"I\x27m really worried now. Please take a moment for yourself! 🌸", MOOD_WORRIED, CARE_WORRIED, 0, 0⟩,
    ⟨"This is your caring companion speaking: you need attention right now! 💛", MOOD_WORRIED, CARE_WORRIED, 0, 0⟩ ]

/-- `PersonalityEngine::loadGreetingMessages`. -/
def greetingMessages : List PersonalityMessage :=
  [ ⟨"Hello there! Your caring companion is here! 🌿✨", MOOD_HAPPY, CARE_GENTLE, 0, 0⟩,
    ⟨"Good to see you, \x7bname\x7d! Ready to take great care of yourself today? 💚", MOOD_HAPPY, CARE_GENTLE, 0, 0⟩,
    ⟨"Your pixel plant missed you! Let\x27s have a wonderful day together! 🌸", MOOD_HAPPY, CARE_GENTLE, 0, 0⟩,
    ⟨"Welcome back! I\x27m here to help you stay healthy and happy! 🌟", MOOD_HAPPY, CARE_GENTLE, 0, 0⟩ ]

/-- The engine state after the `PersonalityEngine()` constructor followed by
`initialize()` (which fills the message bank; the partitions without a loader
— break, urgent, goodnight — stay empty). -/
def initEngine : PersonalityEngine where
  currentMood := MOOD_HAPPY
  currentCareLevel := CARE_GENTLE
  caringIntensity := CARING_RESPONSE_WARMTH
  personalityWarmth := CARING_RESPONSE_WARMTH
  messageBank := fun t =>
    match t with
    | RESPONSE_HYDRATION => hydrationMessages
    | RESPONSE_MOVEMENT => movementMessages
    | RESPONSE_POSTURE => postureMessages
    | RESPONSE_ENCOURAGEMENT => encouragementMessages
    | RESPONSE_CELEBRATION => celebrationMessages
    | RESPONSE_CONCERN => concernMessages
    | RESPONSE_GREETING => greetingMessages
    | _ => []
  messageQueue := []
  lastMessageTime := 0
  history :=
    { lastResponseType := RESPONSE_GREETING
      lastResponseTime := 0
      userResponded := false
      consecutiveIgnored := 0
      responseEffectiveness := 0.5 }
  userName := "friend"
  userPreferences := fun _ => 0.5
  learningEnabled := true
  adaptationRate := LEARNING_RATE
  responseCooldown := RESPONSE_COOLDOWN
  canRespond := true

/-! ### Generic facts about the selection loop -/

namespace PersonalityEngine

lemma careBonus_nonneg (e : PersonalityEngine) (m : PersonalityMessage) :
    0 ≤ careBonus e m := by
  unfold careBonus; split <;> norm_num

lemma moodBonus_nonneg (e : PersonalityEngine) (m : PersonalityMessage) :
    0 ≤ moodBonus e m := by
  unfold moodBonus; split <;> norm_num

lemma recencyBonus_nonneg (now : Nat) (m : PersonalityMessage) :
    0 ≤ recencyBonus now m := by
  unfold recencyBonus; positivity

lemma frequencyBonus_pos (m : PersonalityMessage) : 0 < frequencyBonus m := by
  unfold frequencyBonus
  have h1 : (0 : ℚ) < (m.useCount : ℚ) + 1 := by positivity
  positivity

/-- Every score beats the loop's initial `bestScore = -1.0`, so the first
message is always adopted. -/
lemma neg_one_lt_score (e : PersonalityEngine) (now : Nat) (m : PersonalityMessage) :
    (-1 : ℚ) < score e now m := by
  have h1 := careBonus_nonneg e m
  have h2 := moodBonus_nonneg e m
  have h3 := recencyBonus_nonneg now m
  have h4 := frequencyBonus_pos m
  unfold score; linarith

/-- Once the loop holds a candidate it never returns `none`. -/
lemma selectLoop_isSome (e : PersonalityEngine) (now : Nat) :
    ∀ (msgs : List PersonalityMessage) (i : Nat) (q : Nat × PersonalityMessage) (bs : ℚ),
      (selectLoop e now msgs i (some q) bs).isSome = true := by
  intro msgs
  induction msgs with
  | nil => intro i q bs; rfl
  | cons m rest ih =>
    intro i q bs
    rw [selectLoop]
    split
    · exact ih (i + 1) (i, m) (score e now m)
    · exact ih (i + 1) q bs

/-- The returned candidate is either the initial one or indexes a member of
the scanned list (`p.1` counts from the start index `i`). -/
lemma selectLoop_index (e : PersonalityEngine) (now : Nat) :
    ∀ (msgs : List PersonalityMessage) (i : Nat) (best : Option (Nat × PersonalityMessage))
      (bs : ℚ) (p : Nat × PersonalityMessage),
      selectLoop e now msgs i best bs = some p →
      best = some p ∨
        (i ≤ p.1 ∧ p.1 - i < msgs.length ∧ msgs.get? (p.1 - i) = some p.2) := by
  intro msgs
  induction msgs with
  | nil => intro i best bs p hp; exact Or.inl hp
  | cons m rest ih =>
    intro i best bs p hp
    rw [selectLoop] at hp
    split at hp
    · rcases ih (i + 1) (some (i, m)) (score e now m) p hp with h | ⟨h1, h2, h3⟩
      · right
        obtain rfl : p = (i, m) := by exact (Option.some_injective _ h).symm
        simp
      · right
        refine ⟨by omega, by simp only [List.length_cons]; omega, ?_⟩
        have hd : p.1 - i = (p.1 - (i + 1)) + 1 := by omega
        rw [hd]
        simpa using h3
    · rcases ih (i + 1) best bs p hp with h | ⟨h1, h2, h3⟩
      · exact Or.inl h
      · right
        refine ⟨by omega, by simp only [List.length_cons]; omega, ?_⟩
        have hd : p.1 - i = (p.1 - (i + 1)) + 1 := by omega
        rw [hd]
        simpa using h3

/-- The returned candidate's score dominates the initial best score and the
score of every scanned message. -/
lemma selectLoop_max (e : PersonalityEngine) (now : Nat) :
    ∀ (msgs : List PersonalityMessage) (i : Nat) (best : Option (Nat × PersonalityMessage))
      (bs : ℚ),
      (∀ q, best = some q → score e now q.2 = bs) →
      ∀ p, selectLoop e now msgs i best bs = some p →
        bs ≤ score e now p.2 ∧ ∀ m ∈ msgs, score e now m ≤ score e now p.2 := by
  intro msgs
  induction msgs with
  | nil =>
    intro i best bs hbs p hp
    refine ⟨le_of_eq (hbs p hp).symm, by simp⟩
  | cons m rest ih =>
    intro i best bs hbs p hp
    rw [selectLoop] at hp
    split at hp
    · rename_i hlt
      have hbs2 : ∀ q, some (i, m) = some q → score e now q.2 = score e now m := by
        intro q hq
        obtain rfl : q = (i, m) := (Option.some_injective _ hq.symm)
        rfl
      obtain ⟨hge, hall⟩ := ih (i + 1) (some (i, m)) (score e now m) hbs2 p hp
      refine ⟨le_of_lt (lt_of_lt_of_le hlt hge), ?_⟩
      intro x hx
      rcases List.mem_cons.mp hx with rfl | hx
      · exact hge
      · exact hall x hx
    · rename_i hle
      push_neg at hle
      obtain ⟨hge, hall⟩ := ih (i + 1) best bs hbs p hp
      refine ⟨hge, ?_⟩
      intro x hx
      rcases List.mem_cons.mp hx with rfl | hx
      · exact le_trans hle hge
      · exact hall x hx

/-- `selectBestMessage` on a non-empty partition returns an indexed member
whose score is maximal over the partition. -/
lemma selectBestMessage_spec (e : PersonalityEngine) (now : Nat) (type : ResponseType)
    (h : e.messageBank type ≠ []) :
    ∃ p, selectBestMessage e now type = some p ∧
      p.1 < (e.messageBank type).length ∧
      (e.messageBank type).get? p.1 = some p.2 ∧
      ∀ m ∈ e.messageBank type, score e now m ≤ score e now p.2 := by
  obtain ⟨m, rest, hmr⟩ := List.exists_cons_of_ne_nil h
  have hne : (e.messageBank type).isEmpty = false := by
    rw [hmr]; rfl
  have hsel : selectBestMessage e now type =
      selectLoop e now (e.messageBank type) 0 none (-1) := by
    rw [selectBestMessage, hne]; simp
  have hsome : (selectLoop e now (e.messageBank type) 0 none (-1)).isSome = true := by
    rw [hmr, selectLoop, if_pos (neg_one_lt_score e now m)]
    exact selectLoop_isSome e now rest 1 (0, m) (score e now m)
  obtain ⟨p, hp⟩ := Option.isSome_iff_exists.mp hsome
  refine ⟨p, by rw [hsel, hp], ?_, ?_, ?_⟩
  · rcases selectLoop_index e now (e.messageBank type) 0 none (-1) p hp with h0 | ⟨_, h2, _⟩
    · exact absurd h0 (by simp)
    · simpa using h2
  · rcases selectLoop_index e now (e.messageBank type) 0 none (-1) p hp with h0 | ⟨_, _, h3⟩
    · exact absurd h0 (by simp)
    · simpa using h3
  · have := selectLoop_max e now (e.messageBank type) 0 none (-1)
      (by intro q hq; cases hq) p hp
    exact this.2

/-- If one member's score strictly dominates every other entry of the
partition, `selectBestMessage` returns that member, at any index where the
partition holds it. -/
lemma selectBestMessage_unique (e : PersonalityEngine) (now : Nat) (type : ResponseType)
    (m : PersonalityMessage) (hm : m ∈ e.messageBank type)
    (hdom : ∀ m2 ∈ e.messageBank type, m2 ≠ m → score e now m2 < score e now m) :
    ∃ p, selectBestMessage e now type = some p ∧ p.2 = m ∧
      (e.messageBank type).get? p.1 = some m := by
  obtain ⟨p, hp, _, hget, hmax⟩ :=
    selectBestMessage_spec e now type (List.ne_nil_of_mem hm)
  have hmem : p.2 ∈ e.messageBank type := List.get?_mem hget
  have hp2 : p.2 = m := by
    by_contra hne
    exact lt_irrefl _ (lt_of_lt_of_le (hdom p.2 hmem hne) (hmax m hm))
  exact ⟨p, hp, hp2, by rw [← hp2]; exact hget⟩

end PersonalityEngine

/-! ### Care-level bookkeeping lemmas -/

namespace PersonalityEngine

lemma CareLevel.toNat_le_three (c : CareLevel) : c.toNat ≤ 3 := by
  cases c <;> simp [CareLevel.toNat]

lemma escalate_care_toNat (e : PersonalityEngine) :
    (escalateCareLevel e).currentCareLevel.toNat = min (e.currentCareLevel.toNat + 1) 3 := by
  cases h : e.currentCareLevel <;>
    simp [escalateCareLevel, h, CareLevel.toNat, CareLevel.ofIdx]

lemma reduce_care_toNat (e : PersonalityEngine) :
    (reduceCareLevel e).currentCareLevel.toNat = e.currentCareLevel.toNat - 1 := by
  cases h : e.currentCareLevel <;>
    simp [reduceCareLevel, h, CareLevel.toNat, CareLevel.ofIdx]

lemma escalate_currentMood (e : PersonalityEngine) :
    (escalateCareLevel e).currentMood = e.currentMood := by
  unfold escalateCareLevel; split <;> rfl

lemma reduce_currentMood (e : PersonalityEngine) :
    (reduceCareLevel e).currentMood = e.currentMood := by
  unfold reduceCareLevel; split <;> rfl

lemma escalate_history (e : PersonalityEngine) :
    (escalateCareLevel e).history = e.history := by
  unfold escalateCareLevel; split <;> rfl

lemma reduce_history (e : PersonalityEngine) :
    (reduceCareLevel e).history = e.history := by
  unfold reduceCareLevel; split <;> rfl

lemma escalate_prefs (e : PersonalityEngine) :
    (escalateCareLevel e).userPreferences = e.userPreferences := by
  unfold escalateCareLevel; split <;> rfl

lemma reduce_prefs (e : PersonalityEngine) :
    (reduceCareLevel e).userPreferences = e.userPreferences := by
  unfold reduceCareLevel; split <;> rfl

lemma adaptToUser_careLevel (e : PersonalityEngine) (t : ResponseType) (x : ℚ) :
    (adaptToUser e t x).currentCareLevel = e.currentCareLevel := rfl

lemma adaptToUser_history (e : PersonalityEngine) (t : ResponseType) (x : ℚ) :
    (adaptToUser e t x).history = e.history := rfl

/-- The learning gate of `recordUserResponse`/`recordUserIgnored` only
touches `userPreferences`. -/
lemma if_learning_careLevel (e1 : PersonalityEngine) (t : ResponseType) (x : ℚ) :
    (if e1.learningEnabled = true then adaptToUser e1 t x else e1).currentCareLevel
      = e1.currentCareLevel := by
  split <;> rfl

lemma if_learning_history (e1 : PersonalityEngine) (t : ResponseType) (x : ℚ) :
    (if e1.learningEnabled = true then adaptToUser e1 t x else e1).history
      = e1.history := by
  split <;> rfl

/-- `updateMood` always installs exactly the mood computed by
`PersonalityTraits::behaviorToMood` (escalation only touches the care level). -/
lemma updateMood_currentMood (e : PersonalityEngine) (b : BehaviorData) :
    (updateMood e b).currentMood = PersonalityTraits.behaviorToMood b := by
  simp only [updateMood, setMood]
  generalize PersonalityTraits.calculateCaringUrgency b = u
  generalize PersonalityTraits.behaviorToMood b = md
  split
  · rw [escalate_currentMood]
  · split
    · rw [reduce_currentMood]
    · rfl

end PersonalityEngine

/-! ### Externally driven engine transitions, for trace properties -/

open PersonalityEngine in
/-- One externally driven transition of the engine: a behavior tick
(`updateMood`), an ignored reminder (`recordUserIgnored`) or a recorded user
response (`recordUserResponse`). -/
inductive EngineOp
  | tick (behavior : BehaviorData)
  | ignored (type : ResponseType)
  | response (type : ResponseType) (effective : Bool)

/-- Is this operation a recorded *effective* user response? -/
def EngineOp.isEffectiveResponse : EngineOp → Bool
  | .response _ eff => eff
  | _ => false

/-- Apply one transition. -/
def applyOp (e : PersonalityEngine) : EngineOp → PersonalityEngine
  | .tick b => PersonalityEngine.updateMood e b
  | .ignored t => PersonalityEngine.recordUserIgnored e t
  | .response t eff => PersonalityEngine.recordUserResponse e t eff

/-- Apply a sequence of transitions, oldest first. -/
def applyOps (e : PersonalityEngine) (ops : List EngineOp) : PersonalityEngine :=
  ops.foldl applyOp e

/-- Operations that never invoke `reduceCareLevel`: ignored reminders,
ineffective responses, and ticks whose computed caring urgency is at least
the de-escalation threshold `0.3`. -/
def opNonReducing : EngineOp → Bool
  | .tick b => decide ((0.3 : ℚ) ≤ PersonalityTraits.calculateCaringUrgency b)
  | .ignored _ => true
  | .response _ eff => !eff

namespace PersonalityEngine

lemma recordUserIgnored_careLevel_toNat (e : PersonalityEngine) (t : ResponseType) :
    (recordUserIgnored e t).currentCareLevel.toNat = e.currentCareLevel.toNat ∨
    (recordUserIgnored e t).currentCareLevel.toNat = e.currentCareLevel.toNat + 1 := by
  simp only [recordUserIgnored]
  split <;> split
  all_goals
    first
    | (rename_i hcond
       right
       rw [escalate_care_toNat]
       have h2 : e.currentCareLevel.toNat < 3 := hcond.2
       show min (e.currentCareLevel.toNat + 1) 3 = e.currentCareLevel.toNat + 1
       omega)
    | exact Or.inl rfl

lemma recordUserResponse_careLevel_toNat (e : PersonalityEngine) (t : ResponseType)
    (eff : Bool) (hne : eff = false) :
    (recordUserResponse e t eff).currentCareLevel = e.currentCareLevel := by
  subst hne
  simp only [recordUserResponse]
  split <;> split
  all_goals
    first
    | (rename_i hcond; exact absurd hcond.1 (by simp))
    | rfl

lemma updateMood_careLevel_toNat (e : PersonalityEngine) (b : BehaviorData) :
    (updateMood e b).currentCareLevel.toNat = e.currentCareLevel.toNat + 1 ∨
    (updateMood e b).currentCareLevel.toNat = e.currentCareLevel.toNat ∨
    ((updateMood e b).currentCareLevel.toNat = e.currentCareLevel.toNat - 1 ∧
      PersonalityTraits.calculateCaringUrgency b < 0.3) := by
  simp only [updateMood, setMood]
  generalize PersonalityTraits.calculateCaringUrgency b = u
  split
  · rename_i hcond
    left
    rw [escalate_care_toNat]
    have h2 : e.currentCareLevel.toNat < 3 := hcond.2
    show min (e.currentCareLevel.toNat + 1) 3 = e.currentCareLevel.toNat + 1
    omega
  · split
    · rename_i hcond
      right; right
      refine ⟨?_, hcond.1⟩
      rw [reduce_care_toNat]
    · right; left; rfl

/-- A single non-reducing operation cannot lower the care level. -/
lemma applyOp_care_mono (e : PersonalityEngine) (op : EngineOp)
    (h : opNonReducing op = true) :
    e.currentCareLevel.toNat ≤ (applyOp e op).currentCareLevel.toNat := by
  cases op with
  | tick b =>
    simp only [opNonReducing, decide_eq_true_eq] at h
    rcases updateMood_careLevel_toNat e b with h1 | h1 | ⟨_, h2⟩
    · simp only [applyOp]; omega
    · simp only [applyOp]; omega
    · exact absurd h2 (not_lt.mpr h)
  | ignored t =>
    rcases recordUserIgnored_careLevel_toNat e t with h1 | h1 <;>
      simp only [applyOp] <;> omega
  | response t eff =>
    simp only [opNonReducing, Bool.not_eq_true'] at h
    simp only [applyOp, recordUserResponse_careLevel_toNat e t eff h, le_refl]

end PersonalityEngine

/-! ### Claim theorems -/

namespace PersonalityEngine

/-- A behavior sample with no activity signal at all: urgency `0`. -/
def quietBehavior : BehaviorData :=
  { inactivityMinutes := 0, needsHydration := false, needsMovement := false,
    needsPostureAdjustment := false, needsSupport := false, hasPositiveBehavior := false }

/-- Three consecutively ignored reminders. -/
def ignoredThrice : List EngineOp :=
  [.ignored RESPONSE_HYDRATION, .ignored RESPONSE_HYDRATION, .ignored RESPONSE_HYDRATION]

lemma initEngine_learning : initEngine.learningEnabled = true := rfl

lemma initEngine_ignored : initEngine.history.consecutiveIgnored = 0 := rfl

lemma initEngine_careLevel : initEngine.currentCareLevel = CARE_GENTLE := rfl

lemma initEngine_mood : initEngine.currentMood = MOOD_HAPPY := rfl

/-- Claim C1, counterexample: starting from the freshly initialized engine,
the response-free sequence "three ignored reminders, then one quiet
`updateMood` tick" first escalates the care level to `Encouraging` and then
drops it back to `Gentle` — the care level *decreases* although no effective
user response was ever recorded (the quiet tick's urgency `0 < 0.3` triggers
`reduceCareLevel`). -/
theorem careLevel_decrease_without_response :
    (∀ op ∈ ignoredThrice ++ [EngineOp.tick quietBehavior],
        op.isEffectiveResponse = false) ∧
    (applyOps initEngine ignoredThrice).currentCareLevel = CARE_ENCOURAGING ∧
    (applyOps initEngine (ignoredThrice ++ [EngineOp.tick quietBehavior])).currentCareLevel
      = CARE_GENTLE := by
  refine ⟨by decide, ?_, ?_⟩ <;>
  norm_num [applyOps, applyOp, ignoredThrice, recordUserIgnored, adaptToUser, updateMood,
    setMood, escalateCareLevel, reduceCareLevel, CareLevel.toNat, CareLevel.ofIdx,
    PersonalityTraits.calculateCaringUrgency, PersonalityTraits.behaviorToMood,
    NORMAL_INACTIVITY_THRESHOLD, CONCERNED_INACTIVITY_THRESHOLD, URGENT_INACTIVITY_THRESHOLD,
    quietBehavior, inf_eq_min, min_def, initEngine_learning, initEngine_ignored,
    initEngine_careLevel]

/-- Claim C1, amended: over any sequence of ignored reminders, ineffective
responses, and `updateMood` ticks whose computed caring urgency is at least
`0.3`, the care level is non-decreasing; it can decrease only through
`reduceCareLevel`, which is invoked by `recordUserResponse` with
`effective = true` or by an `updateMood` tick whose urgency is below `0.3`. -/
theorem careLevel_monotone_without_reducing_events (e : PersonalityEngine)
    (ops : List EngineOp) (h : ∀ op ∈ ops, opNonReducing op = true) :
    e.currentCareLevel.toNat ≤ (applyOps e ops).currentCareLevel.toNat := by
  induction ops generalizing e with
  | nil => exact le_refl _
  | cons op rest ih =>
    have h1 := applyOp_care_mono e op (h op (List.mem_cons_self op rest))
    have h2 := ih (applyOp e op) (fun o ho => h o (List.mem_cons_of_mem op ho))
    simp only [applyOps, List.foldl_cons] at h2 ⊢
    exact le_trans h1 h2

/-- Ops for the witness of `careLevel_monotone_without_reducing_events`. -/
def monotoneWitnessOps : List EngineOp :=
  [.ignored RESPONSE_HYDRATION, .response RESPONSE_MOVEMENT false]

/-- Witness for `careLevel_monotone_without_reducing_events` at a concrete
sequence. -/
theorem careLevel_monotone_witness :
    (∀ op ∈ monotoneWitnessOps, opNonReducing op = true) ∧
    initEngine.currentCareLevel.toNat ≤
      (applyOps initEngine monotoneWitnessOps).currentCareLevel.toNat :=
  ⟨by decide,
   careLevel_monotone_without_reducing_events initEngine monotoneWitnessOps (by decide)⟩

/-- Claim C3 (confirmed): a single `updateMood` tick changes the care level
by at most one step and keeps it in the range `Gentle..Worried` (`0..3`);
`escalateCareLevel` moves up exactly one step capped at `Worried`, and
`reduceCareLevel` moves down exactly one step floored at `Gentle`. -/
theorem careLevel_single_step (e : PersonalityEngine) (b : BehaviorData) :
    ((updateMood e b).currentCareLevel.toNat ≤ e.currentCareLevel.toNat + 1 ∧
     e.currentCareLevel.toNat ≤ (updateMood e b).currentCareLevel.toNat + 1 ∧
     (updateMood e b).currentCareLevel.toNat ≤ 3) ∧
    (escalateCareLevel e).currentCareLevel.toNat = min (e.currentCareLevel.toNat + 1) 3 ∧
    (reduceCareLevel e).currentCareLevel.toNat = e.currentCareLevel.toNat - 1 ∧
    e.currentCareLevel.toNat ≤ 3 := by
  refine ⟨?_, escalate_care_toNat e, reduce_care_toNat e, CareLevel.toNat_le_three _⟩
  rcases updateMood_careLevel_toNat e b with h | h | ⟨h, _⟩ <;>
    exact ⟨by omega, by omega, CareLevel.toNat_le_three _⟩

/-- A behavior sample with a positive behavior *and* urgent inactivity. -/
def positiveUrgentBehavior : BehaviorData :=
  { inactivityMinutes := 121, needsHydration := false, needsMovement := false,
    needsPostureAdjustment := false, needsSupport := false, hasPositiveBehavior := true }

/-- Claim C5, counterexample: positive behavior does *not* take priority in
the recomputed mood — with `hasPositiveBehavior = true` but 121 minutes of
inactivity, `updateMood` installs `Worried`, not `Celebrating`
(`behaviorToMood` checks the inactivity thresholds first). -/
theorem positiveBehavior_mood_cex :
    positiveUrgentBehavior.hasPositiveBehavior = true ∧
    (updateMood initEngine positiveUrgentBehavior).currentMood = MOOD_WORRIED ∧
    (updateMood initEngine positiveUrgentBehavior).currentMood ≠ MOOD_CELEBRATING := by
  refine ⟨rfl, ?_, ?_⟩ <;> rw [updateMood_currentMood] <;> decide

/-- Claim C5, amended: the mood recomputed by `updateMood` is the function of
`(inactivityMinutes, hasPositiveBehavior, needsSupport)` with *inactivity*
taking priority: more than 120 minutes gives `Worried`, more than 60 gives
`Concerned`; only then positive behavior gives `Celebrating`, unmet support
need gives `Caring`, and otherwise the mood is `Happy`. -/
theorem updateMood_mood_characterization (e : PersonalityEngine) (b : BehaviorData) :
    (updateMood e b).currentMood = PersonalityTraits.behaviorToMood b ∧
    PersonalityTraits.behaviorToMood b =
      (if 120 < b.inactivityMinutes then MOOD_WORRIED
       else if 60 < b.inactivityMinutes then MOOD_CONCERNED
       else if b.hasPositiveBehavior = true then MOOD_CELEBRATING
       else if b.needsSupport = true then MOOD_CARING
       else MOOD_HAPPY) :=
  ⟨updateMood_currentMood e b, rfl⟩

/-- Claim C6 (confirmed): `recordUserIgnored` increments the consecutively
ignored count, and whenever the incremented count reaches 3 the care level
escalates by exactly one step — `min (old + 1) 3` — i.e. regardless of
inactivity, unless it is already at the maximum `Worried`. -/
theorem ignored_escalation (e : PersonalityEngine) (t : ResponseType)
    (h3 : 3 ≤ e.history.consecutiveIgnored + 1) :
    (recordUserIgnored e t).history.consecutiveIgnored =
      e.history.consecutiveIgnored + 1 ∧
    (recordUserIgnored e t).currentCareLevel.toNat =
      min (e.currentCareLevel.toNat + 1) 3 := by
  constructor
  · simp only [recordUserIgnored]
    split <;> split
    all_goals first
      | (rw [escalate_history]; rfl)
      | rw [escalate_history]
      | rfl
  · simp only [recordUserIgnored]
    split <;> split
    all_goals first
      | (rw [escalate_care_toNat]; rfl)
      | rw [escalate_care_toNat]
      | (rename_i hcond
         have hcond2 : ¬(3 ≤ e.history.consecutiveIgnored + 1 ∧
             e.currentCareLevel.toNat < 3) := hcond
         have h4 : e.currentCareLevel.toNat ≤ 3 := CareLevel.toNat_le_three _
         have h5 : ¬ e.currentCareLevel.toNat < 3 := fun hlt => hcond2 ⟨h3, hlt⟩
         show e.currentCareLevel.toNat = min (e.currentCareLevel.toNat + 1) 3
         omega)

/-- An engine two ignored reminders deep, for the witness of
`ignored_escalation`. -/
def ignoredTwiceEngine : PersonalityEngine :=
  { initEngine with history := { initEngine.history with consecutiveIgnored := 2 } }

/-- Witness for `ignored_escalation` at a concrete engine state. -/
theorem ignored_escalation_witness :
    3 ≤ ignoredTwiceEngine.history.consecutiveIgnored + 1 ∧
    (recordUserIgnored ignoredTwiceEngine RESPONSE_HYDRATION).history.consecutiveIgnored =
      ignoredTwiceEngine.history.consecutiveIgnored + 1 ∧
    (recordUserIgnored ignoredTwiceEngine RESPONSE_HYDRATION).currentCareLevel.toNat =
      min (ignoredTwiceEngine.currentCareLevel.toNat + 1) 3 :=
  ⟨by decide,
   (ignored_escalation ignoredTwiceEngine RESPONSE_HYDRATION (by decide)).1,
   (ignored_escalation ignoredTwiceEngine RESPONSE_HYDRATION (by decide)).2⟩

/-- Claim C7 (confirmed): recording an effective user response de-escalates
the care level by exactly one step with a floor at `Gentle` (truncated `- 1`
on the numeric level, so `Worried = 3` drops to `Concerned = 2`) and resets
`consecutiveIgnored` to 0, for every engine state. -/
theorem effective_response_deescalates (e : PersonalityEngine) (t : ResponseType) :
    (recordUserResponse e t true).currentCareLevel.toNat =
      e.currentCareLevel.toNat - 1 ∧
    (recordUserResponse e t true).history.consecutiveIgnored = 0 := by
  constructor
  · simp only [recordUserResponse, eq_self_iff_true, if_true, true_and]
    split <;> split
    all_goals first
      | (rw [reduce_care_toNat]; rfl)
      | rw [reduce_care_toNat]
      | (rename_i hcond
         have h5 : ¬ 0 < e.currentCareLevel.toNat := hcond
         show e.currentCareLevel.toNat = e.currentCareLevel.toNat - 1
         omega)
  · simp only [recordUserResponse, eq_self_iff_true, if_true, true_and]
    split <;> split
    all_goals first
      | (rw [reduce_history]; rfl)
      | rw [reduce_history]
      | rfl

/-- The preference table after `recordUserResponse` with learning enabled:
only the slot of the recorded type moves, by the exponential moving average. -/
lemma recordUserResponse_prefs (e : PersonalityEngine) (t : ResponseType)
    (eff : Bool) (hl : e.learningEnabled = true) :
    (recordUserResponse e t eff).userPreferences = fun s =>
      if s = t then
        e.userPreferences t * (1 - e.adaptationRate) +
          (if eff = true then 1.0 else 0.0) * e.adaptationRate
      else e.userPreferences s := by
  simp only [recordUserResponse, hl, if_true]
  split <;> split
  all_goals first
    | (rw [reduce_prefs]; rfl)
    | rw [reduce_prefs]
    | rfl

/-- Claim C9 (confirmed): with learning enabled, a recorded outcome updates
the stored effectiveness for the recorded response type by the
exponential-moving-average equation
`new = old * (1 - rate) + (effective ? 1 : 0) * rate`, leaves every other
response type's preference unchanged, and the engine's rate is initialized
to `LEARNING_RATE = 0.1`. -/
theorem adaptToUser_ema (e : PersonalityEngine) (t s : ResponseType) (effective : Bool)
    (hl : e.learningEnabled = true) (hs : s ≠ t) :
    (recordUserResponse e t effective).userPreferences t =
      e.userPreferences t * (1 - e.adaptationRate) +
        (if effective = true then 1 else 0) * e.adaptationRate ∧
    (recordUserResponse e t effective).userPreferences s = e.userPreferences s ∧
    initEngine.adaptationRate = LEARNING_RATE ∧ LEARNING_RATE = 0.1 := by
  refine ⟨?_, ?_, rfl, rfl⟩
  · rw [recordUserResponse_prefs e t effective hl]
    simp only [if_pos rfl]
    cases effective <;> norm_num
  · rw [recordUserResponse_prefs e t effective hl]
    simp [hs]

/-- Witness for `adaptToUser_ema` at the initial engine. -/
theorem adaptToUser_ema_witness :
    initEngine.learningEnabled = true ∧
    RESPONSE_GREETING ≠ RESPONSE_HYDRATION ∧
    ((recordUserResponse initEngine RESPONSE_HYDRATION true).userPreferences
        RESPONSE_HYDRATION =
      initEngine.userPreferences RESPONSE_HYDRATION * (1 - initEngine.adaptationRate) +
        (if true = true then 1 else 0) * initEngine.adaptationRate ∧
    (recordUserResponse initEngine RESPONSE_HYDRATION true).userPreferences
        RESPONSE_GREETING =
      initEngine.userPreferences RESPONSE_GREETING ∧
    initEngine.adaptationRate = LEARNING_RATE ∧ LEARNING_RATE = 0.1) :=
  ⟨rfl, by decide,
   adaptToUser_ema initEngine RESPONSE_HYDRATION RESPONSE_GREETING true rfl (by decide)⟩

/-- Claim C10 (confirmed): `queueMessage` never grows the pending queue past
10 entries — when the queue already holds 10 (or more) entries the message is
silently dropped and the entire engine state is unchanged, and from any
queue within the bound the queue stays within the bound. -/
theorem queue_bound (e : PersonalityEngine) (m : String) :
    (10 ≤ e.messageQueue.length → queueMessage e m = e) ∧
    (e.messageQueue.length ≤ 10 → (queueMessage e m).messageQueue.length ≤ 10) := by
  unfold queueMessage
  split
  · rename_i hlt
    refine ⟨fun h10 => absurd h10 (by omega), fun _ => ?_⟩
    show (e.messageQueue ++ [m]).length ≤ 10
    simp only [List.length_append, List.length_cons, List.length_nil]
    omega
  · exact ⟨fun _ => rfl, fun h10 => h10⟩

/-- An engine whose pending queue is full. -/
def fullQueueEngine : PersonalityEngine :=
  { initEngine with
      messageQueue := ["a", "b", "c", "d", "e", "f", "g", "h", "i", "j"] }

/-- Witness for `queue_bound` at a full queue. -/
theorem queue_bound_witness :
    10 ≤ fullQueueEngine.messageQueue.length ∧
    queueMessage fullQueueEngine "overflow" = fullQueueEngine ∧
    (queueMessage fullQueueEngine "overflow").messageQueue.length ≤ 10 :=
  ⟨by decide,
   (queue_bound fullQueueEngine "overflow").1 (by decide),
   (queue_bound fullQueueEngine "overflow").2 (by decide)⟩

/-- Claim C2, counterexample: with the cooldown elapsed and an empty catalog
partition (`RESPONSE_BREAK` has no loader, so its partition is empty in the
initialized engine), `generateCaringResponse` returns the hard-coded fallback
text `"I care about you! 💚"` — not the empty "no message" result that the
claim requires for the catalog-empty case. -/
theorem emptyPartition_fallback_cex :
    initEngine.messageBank RESPONSE_BREAK = [] ∧
    canRespondNow initEngine 6000 = true ∧
    (generateCaringResponse initEngine 6000 RESPONSE_BREAK).1 = "I care about you! 💚" ∧
    (generateCaringResponse initEngine 6000 RESPONSE_BREAK).1 ≠ "" :=
  ⟨rfl, by decide, by decide, by decide⟩

/-- Claim C2, amended: `generateCaringResponse` returns the empty "no
message" result exactly on the cooldown/disabled gate (`canRespondNow`
false), leaving the engine unchanged; when it may respond it returns the
fallback text `"I care about you! 💚"` on an empty catalog partition, and
otherwise the personalized text of some member of the partition. -/
theorem generateCaringResponse_cases (e : PersonalityEngine) (now : Nat)
    (type : ResponseType) :
    (canRespondNow e now = false → generateCaringResponse e now type = ("", e)) ∧
    (canRespondNow e now = true → e.messageBank type = [] →
      generateCaringResponse e now type = ("I care about you! 💚", e)) ∧
    (canRespondNow e now = true → e.messageBank type ≠ [] →
      ∃ m ∈ e.messageBank type,
        (generateCaringResponse e now type).1 = personalizeMessage e m.text) := by
  refine ⟨fun h => ?_, fun h he => ?_, fun h hne => ?_⟩
  · simp [generateCaringResponse, h]
  · have hsel : selectBestMessage e now type = none := by
      rw [selectBestMessage, he]
      rfl
    simp [generateCaringResponse, h, hsel]
  · obtain ⟨p, hp, _, hget, _⟩ := selectBestMessage_spec e now type hne
    refine ⟨p.2, List.get?_mem hget, ?_⟩
    simp [generateCaringResponse, h, hp]

/-- Witness for `generateCaringResponse_cases`, exercising all three cases
at concrete inputs on the initialized engine. -/
theorem generateCaringResponse_cases_witness :
    (canRespondNow initEngine 0 = false ∧
      generateCaringResponse initEngine 0 RESPONSE_HYDRATION = ("", initEngine)) ∧
    (canRespondNow initEngine 6000 = true ∧ initEngine.messageBank RESPONSE_BREAK = [] ∧
      generateCaringResponse initEngine 6000 RESPONSE_BREAK =
        ("I care about you! 💚", initEngine)) ∧
    (canRespondNow initEngine 6000 = true ∧
      initEngine.messageBank RESPONSE_GREETING ≠ [] ∧
      ∃ m ∈ initEngine.messageBank RESPONSE_GREETING,
        (generateCaringResponse initEngine 6000 RESPONSE_GREETING).1 =
          personalizeMessage initEngine m.text) :=
  ⟨⟨by decide, (generateCaringResponse_cases initEngine 0 RESPONSE_HYDRATION).1 (by decide)⟩,
   ⟨by decide, rfl,
    (generateCaringResponse_cases initEngine 6000 RESPONSE_BREAK).2.1 (by decide) rfl⟩,
   ⟨by decide, by decide,
    (generateCaringResponse_cases initEngine 6000 RESPONSE_GREETING).2.2 (by decide)
      (by decide)⟩⟩

/-- Claim C8 (confirmed): every candidate's score is exactly the weighted sum
`0.4·[careLevel match] + 0.3·[mood match] + minutes-since-last-use·0.2 +
(10/(useCount+1))·0.1`, where the recency term is capped (32-bit unsigned
time arithmetic bounds `timeSinceUse` by `2^32 - 1` ms); `selectBestMessage`
on a non-empty partition returns a member attaining the maximal score. -/
theorem score_formula_and_argmax (e : PersonalityEngine) (now : Nat)
    (type : ResponseType) (m0 : PersonalityMessage) (h : e.messageBank type ≠ []) :
    score e now m0 =
      (if m0.careLevel = e.currentCareLevel then 0.4 else 0) +
      (if m0.mood = e.currentMood then 0.3 else 0) +
      min (((usub now m0.timestamp : ℚ) / 60000) * 0.2)
        (((2 ^ 32 - 1 : ℚ) / 60000) * 0.2) +
      (10 / ((m0.useCount : ℚ) + 1)) * 0.1 ∧
    ∃ p, selectBestMessage e now type = some p ∧ p.2 ∈ e.messageBank type ∧
      ∀ m ∈ e.messageBank type, score e now m ≤ score e now p.2 := by
  constructor
  · have h1 : usub now m0.timestamp < 2 ^ 32 :=
      Nat.mod_lt _ (by norm_num [U32])
    have h2 : ((usub now m0.timestamp : ℚ) / 60000) * 0.2 ≤
        ((2 ^ 32 - 1 : ℚ) / 60000) * 0.2 := by
      have h3 : (usub now m0.timestamp : ℚ) ≤ (2 ^ 32 - 1 : ℚ) := by
        have h4 : usub now m0.timestamp ≤ 2 ^ 32 - 1 := by omega
        calc (usub now m0.timestamp : ℚ) ≤ ((2 ^ 32 - 1 : ℕ) : ℚ) := by
              exact_mod_cast h4
          _ = (2 ^ 32 - 1 : ℚ) := by norm_num
      gcongr
    rw [min_eq_left h2]
    rfl
  · obtain ⟨p, hp, _, hget, hmax⟩ := selectBestMessage_spec e now type h
    exact ⟨p, hp, List.get?_mem hget, hmax⟩

/-- Witness for `score_formula_and_argmax` on the greeting partition of the
initialized engine. -/
theorem score_formula_witness :
    initEngine.messageBank RESPONSE_GREETING ≠ [] ∧
    ∃ p, selectBestMessage initEngine 6000 RESPONSE_GREETING = some p ∧
      p.2 ∈ initEngine.messageBank RESPONSE_GREETING ∧
      ∀ m ∈ initEngine.messageBank RESPONSE_GREETING,
        score initEngine 6000 m ≤ score initEngine 6000 p.2 :=
  ⟨by decide,
   (score_formula_and_argmax initEngine 6000 RESPONSE_GREETING
      ⟨"x", MOOD_HAPPY, CARE_GENTLE, 0, 0⟩ (by decide)).2⟩

/-! ### Claim C4: immediate repeats in message selection -/

/-- A behavior sample past the urgent inactivity threshold with an unmet
hydration need: urgency `min 1.1 1 = 1`, mood `Worried`. -/
def urgentBehavior : BehaviorData :=
  { inactivityMinutes := 121, needsHydration := true, needsMovement := false,
    needsPostureAdjustment := false, needsSupport := false, hasPositiveBehavior := false }

/-- The engine after three urgent `updateMood` ticks from the initial state:
care level escalates `Gentle → Encouraging → Concerned → Worried`, mood is
`Worried`. -/
def worriedEngine : PersonalityEngine :=
  updateMood (updateMood (updateMood initEngine urgentBehavior) urgentBehavior)
    urgentBehavior

/-- `worriedEngine`, written out. -/
def wEngine : PersonalityEngine :=
  { initEngine with
      currentMood := MOOD_WORRIED, currentCareLevel := CARE_WORRIED, caringIntensity := 1 }

lemma wEngine_care : wEngine.currentCareLevel = CARE_WORRIED := rfl

lemma wEngine_mood : wEngine.currentMood = MOOD_WORRIED := rfl

lemma wEngine_bank : wEngine.messageBank RESPONSE_HYDRATION = hydrationMessages := rfl

lemma worriedEngine_eq : worriedEngine = wEngine := by
  norm_num [worriedEngine, wEngine, updateMood, setMood, escalateCareLevel, reduceCareLevel,
    PersonalityTraits.calculateCaringUrgency, PersonalityTraits.behaviorToMood,
    NORMAL_INACTIVITY_THRESHOLD, CONCERNED_INACTIVITY_THRESHOLD, URGENT_INACTIVITY_THRESHOLD,
    CareLevel.toNat, CareLevel.ofIdx, urgentBehavior, inf_eq_min, min_def,
    initEngine_careLevel, initEngine_mood]

/-- The worried hydration message, as loaded (entry 10 of the partition). -/
def worriedHydrationMsg : PersonalityMessage :=
  ⟨"Please, \x7bname\x7d - you really need to drink some water now. I\x27m worried about you! 💧",
    MOOD_WORRIED, CARE_WORRIED, 0, 0⟩

/-- The same message after one selection at `t = 5001`. -/
def worriedHydrationMsgUsed : PersonalityMessage :=
  { worriedHydrationMsg with useCount := 1, timestamp := 5001 }

/-- The engine after the first hydration selection at `t = 5001`. -/
def afterFirstSelection : PersonalityEngine :=
  { wEngine with
      messageBank := fun s =>
        if s = RESPONSE_HYDRATION then hydrationMessages.set 10 worriedHydrationMsgUsed
        else wEngine.messageBank s,
      lastMessageTime := 5001,
      history := { wEngine.history with
        lastResponseType := RESPONSE_HYDRATION, lastResponseTime := 5001,
        userResponded := false } }

lemma afterFirstSelection_bank :
    afterFirstSelection.messageBank RESPONSE_HYDRATION =
      hydrationMessages.set 10 worriedHydrationMsgUsed := rfl

lemma afterFirstSelection_care : afterFirstSelection.currentCareLevel = CARE_WORRIED := rfl

lemma afterFirstSelection_mood : afterFirstSelection.currentMood = MOOD_WORRIED := rfl

/-- At `t = 5001`, the worried entry strictly dominates every other
hydration message (`0.7` of match bonuses against at most a shared recency
and frequency bonus). -/
lemma first_selection_dom :
    ∀ m2 ∈ wEngine.messageBank RESPONSE_HYDRATION, m2 ≠ worriedHydrationMsg →
      score wEngine 5001 m2 < score wEngine 5001 worriedHydrationMsg := by
  intro m2 hm2 hne
  rw [wEngine_bank] at hm2
  simp only [hydrationMessages] at hm2
  fin_cases hm2 <;>
    first
    | (exact absurd rfl hne)
    | (norm_num [score, careBonus, moodBonus, recencyBonus, frequencyBonus, usub, U32,
         worriedHydrationMsg, wEngine_care, wEngine_mood] <;>
       (split_ifs with h1 h2 <;>
         first
         | exact absurd h1 (by decide)
         | exact absurd h2 (by decide)
         | contradiction
         | norm_num))

/-- At `t = 10002`, the just-used worried entry still strictly dominates: its
match bonuses (`0.7`) outweigh the frequency penalty (`1.0 → 0.5`) and the
recency edge of the fresh entries. -/
lemma second_selection_dom :
    ∀ m2 ∈ afterFirstSelection.messageBank RESPONSE_HYDRATION,
      m2 ≠ worriedHydrationMsgUsed →
      score afterFirstSelection 10002 m2 <
        score afterFirstSelection 10002 worriedHydrationMsgUsed := by
  intro m2 hm2 hne
  rw [afterFirstSelection_bank] at hm2
  simp only [hydrationMessages, worriedHydrationMsgUsed, worriedHydrationMsg,
    List.set] at hm2
  fin_cases hm2 <;>
    first
    | (exact absurd rfl hne)
    | (norm_num [score, careBonus, moodBonus, recencyBonus, frequencyBonus, usub, U32,
         worriedHydrationMsg, worriedHydrationMsgUsed, afterFirstSelection_care,
         afterFirstSelection_mood] <;>
       (split_ifs with h1 h2 <;>
         first
         | exact absurd h1 (by decide)
         | exact absurd h2 (by decide)
         | contradiction
         | norm_num))

lemma first_selection_eq :
    selectBestMessage wEngine 5001 RESPONSE_HYDRATION = some (10, worriedHydrationMsg) := by
  obtain ⟨p, hp, hp2, hget⟩ := selectBestMessage_unique wEngine 5001 RESPONSE_HYDRATION
    worriedHydrationMsg (by rw [wEngine_bank]; decide) first_selection_dom
  rw [wEngine_bank] at hget
  have hlen := (List.get?_eq_some.mp hget).1
  have hidx : ∀ k, k < hydrationMessages.length →
      hydrationMessages.get? k = some worriedHydrationMsg → k = 10 := by decide
  have h1 := hidx p.1 hlen hget
  obtain ⟨a, b⟩ := p
  simp only at h1 hp2
  subst h1; subst hp2
  exact hp

lemma second_selection_eq :
    selectBestMessage afterFirstSelection 10002 RESPONSE_HYDRATION =
      some (10, worriedHydrationMsgUsed) := by
  obtain ⟨p, hp, hp2, hget⟩ := selectBestMessage_unique afterFirstSelection 10002
    RESPONSE_HYDRATION worriedHydrationMsgUsed
    (by rw [afterFirstSelection_bank]; decide) second_selection_dom
  rw [afterFirstSelection_bank] at hget
  have hlen := (List.get?_eq_some.mp hget).1
  have hidx : ∀ k, k < (hydrationMessages.set 10 worriedHydrationMsgUsed).length →
      (hydrationMessages.set 10 worriedHydrationMsgUsed).get? k =
        some worriedHydrationMsgUsed → k = 10 := by decide
  have h1 := hidx p.1 hlen hget
  obtain ⟨a, b⟩ := p
  simp only at h1 hp2
  subst h1; subst hp2
  exact hp

lemma first_generate_eq :
    generateCaringResponse worriedEngine 5001 RESPONSE_HYDRATION =
      (personalizeMessage wEngine worriedHydrationMsg.text, afterFirstSelection) := by
  rw [worriedEngine_eq]
  have hc : canRespondNow wEngine 5001 = true := by decide
  simp only [generateCaringResponse, hc, first_selection_eq]
  rfl

lemma second_generate_fst :
    (generateCaringResponse afterFirstSelection 10002 RESPONSE_HYDRATION).1 =
      personalizeMessage afterFirstSelection worriedHydrationMsgUsed.text := by
  have hc : canRespondNow afterFirstSelection 10002 = true := by decide
  simp only [generateCaringResponse, hc, second_selection_eq]
  rfl

/-- Claim C4, counterexample: from the initialized engine, three urgent
ticks reach care level `Worried` / mood `Worried`; then two consecutive
successful hydration selections — at `t = 5001` ms and `t = 10002` ms, each
updating the chosen message's `useCount` and timestamp — both return the
identical message text: the `0.7` care/mood match bonus of the single
worried entry outweighs its halved inverse-frequency bonus, so the partition
(11 messages) repeats it immediately. -/
theorem immediate_repeat_cex :
    2 ≤ (worriedEngine.messageBank RESPONSE_HYDRATION).length ∧
    (generateCaringResponse worriedEngine 5001 RESPONSE_HYDRATION).1 =
      "Please, friend - you really need to drink some water now. I\x27m worried about you! 💧" ∧
    (generateCaringResponse worriedEngine 5001 RESPONSE_HYDRATION).2 =
      afterFirstSelection ∧
    (generateCaringResponse afterFirstSelection 10002 RESPONSE_HYDRATION).1 =
      (generateCaringResponse worriedEngine 5001 RESPONSE_HYDRATION).1 ∧
    (generateCaringResponse afterFirstSelection 10002 RESPONSE_HYDRATION).1 ≠ "" := by
  refine ⟨?_, ?_, ?_, ?_, ?_⟩
  · rw [worriedEngine_eq, wEngine_bank]; decide
  · rw [first_generate_eq]; decide
  · rw [first_generate_eq]
  · rw [first_generate_eq, second_generate_fst]; rfl
  · rw [second_generate_fst]; decide

/-- Unsigned time subtraction coincides with truncated subtraction below the
32-bit wrap. -/
lemma usub_eq_sub (a b : Nat) (h1 : b ≤ a) (h2 : a < 2 ^ 32) : usub a b = a - b := by
  have e32 : (2 : ℕ) ^ 32 = 4294967296 := by norm_num
  unfold usub U32
  rw [e32] at h2 ⊢
  omega

/-- Claim C4, amended: an immediate repeat of the just-used message is
excluded whenever the partition also holds a message whose care/mood match
bonus is at least the used one's, whose use count is strictly lower, and
whose last-used timestamp is no later — such an alternative strictly
outscores the used message, so `selectBestMessage` cannot return the used
message again.  (The counterexample shows the unconditional claim fails:
the worried hydration entry has no such alternative.) -/
theorem no_repeat_with_dominating_alternative (e : PersonalityEngine) (now : Nat)
    (type : ResponseType) (mk mj : PersonalityMessage)
    (hj : mj ∈ e.messageBank type)
    (hmatch : careBonus e mk + moodBonus e mk ≤ careBonus e mj + moodBonus e mj)
    (hcnt : mj.useCount < mk.useCount)
    (hts : mj.timestamp ≤ mk.timestamp) (hts2 : mk.timestamp ≤ now)
    (hnow : now < 2 ^ 32) :
    ∀ p, selectBestMessage e now type = some p → p.2 ≠ mk := by
  intro p hp hpk
  obtain ⟨q, hq, _, _, hqmax⟩ :=
    selectBestMessage_spec e now type (List.ne_nil_of_mem hj)
  rw [hp] at hq
  obtain rfl : q = p := Option.some_injective _ hq.symm
  have hrec : recencyBonus now mk ≤ recencyBonus now mj := by
    unfold recencyBonus
    rw [usub_eq_sub now mk.timestamp hts2 hnow,
        usub_eq_sub now mj.timestamp (le_trans hts hts2) hnow]
    have hsub : now - mk.timestamp ≤ now - mj.timestamp := by omega
    have hsub2 : ((now - mk.timestamp : ℕ) : ℚ) ≤ ((now - mj.timestamp : ℕ) : ℚ) := by
      exact_mod_cast hsub
    gcongr
  have hfreq : frequencyBonus mk < frequencyBonus mj := by
    unfold frequencyBonus
    have hc1 : (0 : ℚ) < (mj.useCount : ℚ) + 1 := by positivity
    have hc2 : ((mj.useCount : ℚ) + 1) < ((mk.useCount : ℚ) + 1) := by
      exact_mod_cast Nat.succ_lt_succ hcnt
    have := div_lt_div_of_pos_left (by norm_num : (0:ℚ) < 10) hc1 hc2
    nlinarith
  have hlt : score e now mk < score e now mj := by
    unfold score
    linarith
  have hle : score e now mj ≤ score e now mk := by
    rw [← hpk]
    exact hqmax mj hj
  exact lt_irrefl _ (lt_of_lt_of_le hlt hle)

/-- A two-message partition where the just-used first entry is dominated by
the fresh second entry. -/
def usedMsg : PersonalityMessage := ⟨"a", MOOD_CONCERNED, CARE_CONCERNED, 5001, 1⟩

/-- The fresh alternative for `no_repeat_witness`. -/
def freshMsg : PersonalityMessage := ⟨"b", MOOD_CONCERNED, CARE_CONCERNED, 0, 0⟩

/-- Engine for the witness of `no_repeat_with_dominating_alternative`. -/
def repeatWitnessEngine : PersonalityEngine :=
  { initEngine with messageBank := fun _ => [usedMsg, freshMsg] }

/-- Witness for `no_repeat_with_dominating_alternative` at a concrete
two-message partition. -/
theorem no_repeat_witness :
    freshMsg ∈ repeatWitnessEngine.messageBank RESPONSE_CONCERN ∧
    careBonus repeatWitnessEngine usedMsg + moodBonus repeatWitnessEngine usedMsg ≤
      careBonus repeatWitnessEngine freshMsg + moodBonus repeatWitnessEngine freshMsg ∧
    freshMsg.useCount < usedMsg.useCount ∧
    freshMsg.timestamp ≤ usedMsg.timestamp ∧
    usedMsg.timestamp ≤ 10002 ∧ 10002 < 2 ^ 32 ∧
    ∀ p, selectBestMessage repeatWitnessEngine 10002 RESPONSE_CONCERN = some p →
      p.2 ≠ usedMsg :=
  ⟨by decide,
   by norm_num [careBonus, moodBonus, usedMsg, freshMsg],
   by decide, by decide, by decide, by norm_num,
   no_repeat_with_dominating_alternative repeatWitnessEngine 10002 RESPONSE_CONCERN
     usedMsg freshMsg (by decide)
     (by norm_num [careBonus, moodBonus, usedMsg, freshMsg])
     (by decide) (by decide) (by decide) (by norm_num)⟩

end PersonalityEngine

end PixelPlant
